import Mathlib

/-!
Shallow embedding of the Kitchen Display System (KDS) router of the
restaurant-management backend (`backend/app/routers/kds.py`), together with the
relevant parts of the data model (`backend/app/models.py`) and request schemas
(`backend/app/schemas.py`).

Modelling conventions:
* `datetime` columns are epoch seconds (`Nat`); `datetime.utcnow()` is an
  explicit `now : Nat` argument of each handler.
* Nullable columns are `Option _`.  Python truthiness on nullable integers
  (`if x:`) is `none`/`0` falsy; on nullable strings `none`/`""` falsy; on
  nullable datetimes only `none` falsy (a `datetime` object is always truthy).
* pydantic payloads with `exclude_unset=True` are modelled with doubly-optional
  fields: the outer `Option` is "was the field provided", the inner one is the
  provided value (which may itself be `None`).
* Each handler is a pure function `Db → ... → Except KdsError Db`; raising
  `HTTPException` is returning `.error`.  `db.commit()` boundaries inside one
  request are flattened into the single returned state, and the fire-and-forget
  WebSocket broadcasts (background tasks, no database effect) are omitted.
* In `update_item_status` and `complete_item_preparation` the parent-order
  lookup happens after the item row was committed; a missing parent order makes
  the Python handler fail with an `AttributeError` (HTTP 500).  That corner is
  modelled as `.error .internalError`.
-/

namespace KDS

/-- Row of `order_items` (model `OrderItem`), restricted to the columns the KDS
router reads or writes. -/
structure OrderItem where
  id : Nat
  order_id : Nat
  menu_item_id : Nat
  quantity : Nat
  price : Rat
  special_instructions : Option String
  station_id : Option Nat
  priority : Option Int
  prep_status : Option String
  prep_start_time : Option Nat
  prep_end_time : Option Nat
  assigned_chef_id : Option Nat
  preparation_notes : Option String
  estimated_prep_time : Option Int
  deriving Repr, DecidableEq

/-- Row of `orders` (model `Order`), restricted to the columns the KDS router
reads or writes. -/
structure Order where
  id : Nat
  status : String
  kitchen_status : Option String
  kitchen_received_at : Option Nat
  all_items_ready_at : Option Nat
  bumped_at : Option Nat
  deriving Repr, DecidableEq

/-- Row of `kitchen_performance_logs` (model `KitchenPerformanceLog`);
`created_at` is a server default and never read by the router, so omitted. -/
structure KitchenPerformanceLog where
  station_id : Option Nat
  order_item_id : Nat
  action : String
  chef_id : Option Nat
  duration_seconds : Option Int
  notes : Option String
  deriving Repr, DecidableEq

/-- Row of `ticket_display_settings` (model `TicketDisplaySettings`), which is
also the response shape of the settings endpoints (schema
`TicketDisplaySettings`). -/
structure TicketDisplaySettings where
  id : Nat
  station_id : Option Nat
  font_size : String
  show_customer_names : Bool
  show_ticket_times : Bool
  show_special_requests : Bool
  auto_bump_completed : Bool
  bump_delay_seconds : Int
  alert_threshold_minutes : Int
  updated_at : Option Nat
  deriving Repr, DecidableEq

/-- The database state the KDS router touches. -/
structure Db where
  items : List OrderItem
  orders : List Order
  logs : List KitchenPerformanceLog
  settings : List TicketDisplaySettings
  deriving Repr, DecidableEq

/-- `HTTPException`s raised by the KDS handlers, plus the unhandled-exception
(HTTP 500) outcome. -/
inductive KdsError where
  | notFound (detail : String)
  | forbidden (detail : String)
  | internalError
  deriving Repr, DecidableEq

/-- Python truthiness of a nullable integer column: `None` and `0` are falsy. -/
def natIdTruthy : Option Nat → Bool
  | none => false
  | some n => n != 0

/-- Python truthiness of a nullable signed-integer column. -/
def intTruthy : Option Int → Bool
  | none => false
  | some n => n != 0

/-- Python truthiness of a nullable string: `None` and `""` are falsy. -/
def strTruthy : Option String → Bool
  | none => false
  | some s => s != ""

/-- Python truthiness of a nullable datetime: only `None` is falsy. -/
def dtTruthy : Option Nat → Bool := Option.isSome

/-- Request schema `OrderItemKDSUpdate`: all six fields optional; the outer
`Option` distinguishes "not provided" (pydantic `exclude_unset`) from
"provided as `None`". -/
structure OrderItemKDSUpdate where
  station_id : Option (Option Nat) := none
  priority : Option (Option Int) := none
  prep_status : Option (Option String) := none
  assigned_chef_id : Option (Option Nat) := none
  preparation_notes : Option (Option String) := none
  estimated_prep_time : Option (Option Int) := none
  deriving Repr, DecidableEq

/-- Request schema `BumpOrderRequest`. -/
structure BumpOrderRequest where
  order_id : Nat
  station_id : Option Nat := none
  deriving Repr, DecidableEq

/-- Request schema `ReassignItemRequest`. -/
structure ReassignItemRequest where
  order_item_id : Nat
  new_station_id : Nat
  new_chef_id : Option Nat := none
  reason : Option String := none
  deriving Repr, DecidableEq

/-- Value of a doubly-optional payload field as seen through pydantic attribute
access: `None` both when unprovided and when provided as `None`. -/
def attrVal {α : Type} : Option (Option α) → Option α
  | some v => v
  | none => none

/-- The `setattr` loop of `update_item_status`: write every field that was
present in `status_update.dict(exclude_unset=True)`. -/
def applyKDSUpdate (i : OrderItem) (u : OrderItemKDSUpdate) : OrderItem :=
  let i1 := match u.station_id with
    | some v => { i with station_id := v }
    | none => i
  let i2 := match u.priority with
    | some v => { i1 with priority := v }
    | none => i1
  let i3 := match u.prep_status with
    | some v => { i2 with prep_status := v }
    | none => i2
  let i4 := match u.assigned_chef_id with
    | some v => { i3 with assigned_chef_id := v }
    | none => i3
  let i5 := match u.preparation_notes with
    | some v => { i4 with preparation_notes := v }
    | none => i4
  match u.estimated_prep_time with
    | some v => { i5 with estimated_prep_time := v }
    | none => i5

/-- `db.query(OrderItem).filter(OrderItem.id == item_id).first()`. -/
def findItem (db : Db) (item_id : Nat) : Option OrderItem :=
  db.items.find? (fun j => j.id == item_id)

/-- `db.query(Order).filter(Order.id == order_id).first()`. -/
def findOrder (db : Db) (order_id : Nat) : Option Order :=
  db.orders.find? (fun o => o.id == order_id)

/-- `db.query(TicketDisplaySettings).filter(station_id == station_id).first()`. -/
def findSettings (db : Db) (station_id : Nat) : Option TicketDisplaySettings :=
  db.settings.find? (fun s => s.station_id == some station_id)

/-- Commit a mutation of the order-item row with primary key `item_id`. -/
def setItem (db : Db) (item_id : Nat) (g : OrderItem → OrderItem) : Db :=
  { db with items := db.items.map (fun j => if j.id == item_id then g j else j) }

/-- Commit a mutation of the order row with primary key `order_id`. -/
def setOrder (db : Db) (order_id : Nat) (g : Order → Order) : Db :=
  { db with orders := db.orders.map (fun o => if o.id == order_id then g o else o) }

/-- `db.add(perf_log)` followed by commit: append-only insert. -/
def addLogs (db : Db) (ls : List KitchenPerformanceLog) : Db :=
  { db with logs := db.logs ++ ls }

/-- The `order.order_items` relationship: all items whose `order_id` matches. -/
def orderItems (db : Db) (order_id : Nat) : List OrderItem :=
  db.items.filter (fun j => j.order_id == order_id)

/-- The item-row mutation of `update_item_status`: the `setattr` loop, the
auto-set timestamps (with the performance-log row produced on the transition to
`"ready"`), and the auto-assignment of the current chef.  Returns the new item
row together with the performance-log rows added by `db.add`. -/
def updateItemStep (item0 : OrderItem) (u : OrderItemKDSUpdate) (now : Nat)
    (chef_id : Nat) : OrderItem × List KitchenPerformanceLog :=
  let item1 := applyKDSUpdate item0 u
  let upd_status := attrVal u.prep_status
  let step2 : OrderItem × List KitchenPerformanceLog :=
    if strTruthy upd_status then
      if upd_status == some "preparing" && item1.prep_start_time.isNone then
        ({ item1 with prep_start_time := some now }, [])
      else if upd_status == some "ready" && item1.prep_end_time.isNone then
        match item1.prep_start_time with
        | some st =>
          ({ item1 with prep_end_time := some now },
           [{ station_id := item1.station_id
              order_item_id := item1.id
              action := "completed"
              chef_id := some chef_id
              duration_seconds := some ((now : Int) - (st : Int))
              notes := none }])
        | none => ({ item1 with prep_end_time := some now }, [])
      else (item1, [])
    else (item1, [])
  if !natIdTruthy step2.1.assigned_chef_id && upd_status == some "preparing" then
    ({ step2.1 with assigned_chef_id := some chef_id }, step2.2)
  else step2

/-- The order-aggregate recomputation at the end of `update_item_status`
(lines 306-318): stamp the order only when every sibling item is `"ready"` and
`all_items_ready_at` is still unset. -/
def updateStatusOrderPhase (db1 : Db) (order_id : Nat) (now : Nat) :
    Except KdsError Db :=
  match findOrder db1 order_id with
  | none => .error .internalError
  | some o =>
    let all_ready := (orderItems db1 o.id).all (fun oi => oi.prep_status == some "ready")
    if all_ready && !dtTruthy o.all_items_ready_at then
      .ok (setOrder db1 o.id (fun od =>
        { od with all_items_ready_at := some now
                  kitchen_status := some "all_ready"
                  status := "ready" }))
    else
      .ok db1

/-- Handler `update_item_status` (`PUT /api/kds/items/{item_id}/status`). -/
def updateItemStatus (db : Db) (item_id : Nat) (u : OrderItemKDSUpdate)
    (now : Nat) (chef_id : Nat) : Except KdsError Db :=
  match findItem db item_id with
  | none => .error (.notFound "Order item not found")
  | some item0 =>
    let s := updateItemStep item0 u now chef_id
    updateStatusOrderPhase (addLogs (setItem db item_id (fun _ => s.1)) s.2)
      item0.order_id now

/-- The parent-order advancement at the end of `start_item_preparation`:
`pending → received` (stamping `kitchen_received_at`) and then, because the two
`if` statements are sequential, immediately `received → in_progress`. -/
def startOrderPhase (db1 : Db) (order_id : Nat) (now : Nat) : Except KdsError Db :=
  match findOrder db1 order_id with
  | none => .error .internalError
  | some o =>
    let o1 := if o.kitchen_status == some "pending" then
        { o with kitchen_status := some "received", kitchen_received_at := some now }
      else o
    let o2 := if o1.kitchen_status == some "received" then
        { o1 with kitchen_status := some "in_progress" }
      else o1
    .ok (setOrder db1 o.id (fun _ => o2))

/-- Handler `start_item_preparation` (`POST /api/kds/items/{item_id}/start`).
The three item fields are assigned unconditionally (lines 335-337). -/
def startItemPreparation (db : Db) (item_id : Nat) (now : Nat) (chef_id : Nat) :
    Except KdsError Db :=
  match findItem db item_id with
  | none => .error (.notFound "Order item not found")
  | some item0 =>
    let item1 := { item0 with
      prep_status := some "preparing"
      prep_start_time := some now
      assigned_chef_id := some chef_id }
    startOrderPhase (setItem db item_id (fun _ => item1)) item0.order_id now

/-- The item-row mutation of `complete_item_preparation`: unconditional
`prep_status="ready"` and `prep_end_time=now`, plus a performance-log row when
both `prep_start_time` and `station_id` are truthy. -/
def completeItemStep (item0 : OrderItem) (now : Nat) (chef_id : Nat) :
    OrderItem × List KitchenPerformanceLog :=
  let item1 := { item0 with prep_status := some "ready", prep_end_time := some now }
  let newLogs : List KitchenPerformanceLog :=
    match item1.prep_start_time with
    | some st =>
      if natIdTruthy item1.station_id then
        [{ station_id := item1.station_id
           order_item_id := item1.id
           action := "completed"
           chef_id := some chef_id
           duration_seconds := some ((now : Int) - (st : Int))
           notes := none }]
      else []
    | none => []
  (item1, newLogs)

/-- The order-aggregate recomputation at the end of
`complete_item_preparation` (lines 398-406): unlike `update_item_status`, the
stamp is NOT guarded on `all_items_ready_at` being unset. -/
def completeOrderPhase (db1 : Db) (order_id : Nat) (now : Nat) :
    Except KdsError Db :=
  match findOrder db1 order_id with
  | none => .error .internalError
  | some o =>
    let all_ready := (orderItems db1 o.id).all (fun oi => oi.prep_status == some "ready")
    if all_ready then
      .ok (setOrder db1 o.id (fun od =>
        { od with all_items_ready_at := some now
                  kitchen_status := some "all_ready"
                  status := "ready" }))
    else .ok db1

/-- Handler `complete_item_preparation` (`POST /api/kds/items/{item_id}/complete`). -/
def completeItemPreparation (db : Db) (item_id : Nat) (now : Nat) (chef_id : Nat) :
    Except KdsError Db :=
  match findItem db item_id with
  | none => .error (.notFound "Order item not found")
  | some item0 =>
    let s := completeItemStep item0 now chef_id
    completeOrderPhase (addLogs (setItem db item_id (fun _ => s.1)) s.2)
      item0.order_id now

/-- The whole-order branch of `bump_order`: stamp `bumped_at`, set
`kitchen_status="bumped"`, mark every item of the order `"served"`. -/
def bumpWholeOrder (db : Db) (o : Order) (now : Nat) : Db :=
  let db1 := setOrder db o.id (fun od =>
    { od with bumped_at := some now, kitchen_status := some "bumped" })
  { db1 with items := db1.items.map (fun j =>
      if j.order_id == o.id then { j with prep_status := some "served" } else j) }

/-- Handler `bump_order` (`POST /api/kds/orders/{order_id}/bump`).  The guard
`if bump_request and bump_request.station_id:` is the Python truthiness of the
optional body and of its nullable `station_id`. -/
def bumpOrder (db : Db) (order_id : Nat) (now : Nat)
    (req : Option BumpOrderRequest) : Except KdsError Db :=
  match findOrder db order_id with
  | none => .error (.notFound "Order not found")
  | some o =>
    match req with
    | some r =>
      if natIdTruthy r.station_id then
        .ok { db with items := db.items.map (fun j =>
          if j.order_id == o.id && j.station_id == r.station_id then
            { j with prep_status := some "served" }
          else j) }
      else .ok (bumpWholeOrder db o now)
    | none => .ok (bumpWholeOrder db o now)

/-- The default text of the reassignment log note,
`f"Reassigned to station {reassign_request.new_station_id}"`. -/
def defaultReassignNote (new_station_id : Nat) : String :=
  "Reassigned to station " ++ toString new_station_id

/-- Handler `reassign_item` (`POST /api/kds/items/reassign`).  The two station
lookups in the source are only used to name stations in the WebSocket payload
and have no database effect, so they are omitted. -/
def reassignItem (db : Db) (req : ReassignItemRequest) (chef_id : Nat)
    (role : String) : Except KdsError Db :=
  if !(role == "admin" || role == "manager" || role == "chef") then
    .error (.forbidden "Not authorized")
  else
    match findItem db req.order_item_id with
    | none => .error (.notFound "Order item not found")
    | some item0 =>
      let old_station_id := item0.station_id
      let item1 := { item0 with station_id := some req.new_station_id }
      let item2 := if natIdTruthy req.new_chef_id then
          { item1 with assigned_chef_id := req.new_chef_id }
        else item1
      let db1 := setItem db req.order_item_id (fun _ => item2)
      if natIdTruthy old_station_id then
        .ok (addLogs db1
          [{ station_id := old_station_id
             order_item_id := item0.id
             action := "reassigned"
             chef_id := some chef_id
             duration_seconds := none
             notes := some (match req.reason with
               | some s => if s == "" then defaultReassignNote req.new_station_id else s
               | none => defaultReassignNote req.new_station_id) }])
      else .ok db1

/-- The defaults dictionary returned by `get_display_settings` when no
`TicketDisplaySettings` row exists for the station. -/
def defaultDisplaySettings (station_id : Nat) : TicketDisplaySettings :=
  { id := 0
    station_id := some station_id
    font_size := "medium"
    show_customer_names := true
    show_ticket_times := true
    show_special_requests := true
    auto_bump_completed := false
    bump_delay_seconds := 0
    alert_threshold_minutes := 15
    updated_at := none }

/-- Handler `get_display_settings` (`GET /api/kds/stations/{station_id}/settings`);
a total function — it has no 404 path. -/
def getDisplaySettings (db : Db) (station_id : Nat) : TicketDisplaySettings :=
  match findSettings db station_id with
  | some s => s
  | none => defaultDisplaySettings station_id

/-- The on-time test of `get_station_performance`:
`(prep_end_time - prep_start_time).total_seconds() / 60 <= estimated_prep_time + 5`,
with the division taken exactly (rationals). -/
def onTimeB (s e : Nat) (est : Int) : Bool :=
  decide (((e : ℚ) - (s : ℚ)) / 60 ≤ (est : ℚ) + 5)

/-- One iteration of the on-time loop of `get_station_performance`: the pair of
increments to `(on_time_count, total_with_estimate)` contributed by one item.
The guard is Python truthiness of the three fields
(`if item.prep_start_time and item.prep_end_time and item.estimated_prep_time:`). -/
def onTimeContribution (i : OrderItem) : Nat × Nat :=
  match i.prep_start_time, i.prep_end_time, i.estimated_prep_time with
  | some s, some e, some est =>
    if est != 0 then
      ((if onTimeB s e est then 1 else 0), 1)
    else (0, 0)
  | _, _, _ => (0, 0)

/-- The on-time loop of `get_station_performance` over the queried items:
final `(on_time_count, total_with_estimate)`. -/
def onTimeTotals (items : List OrderItem) : Nat × Nat :=
  items.foldl
    (fun acc i => (acc.1 + (onTimeContribution i).1, acc.2 + (onTimeContribution i).2))
    (0, 0)

/-- The `completed_items` query of `get_station_performance`: items of the
station that are `"ready"`, finished today, and carry an estimate. -/
def completedItemsFilter (station_id : Nat) (today_start : Nat) (i : OrderItem) : Bool :=
  i.station_id == some station_id && i.prep_status == some "ready" &&
    (match i.prep_end_time with
      | some t => decide (today_start ≤ t)
      | none => false) &&
    i.estimated_prep_time.isSome

/-- `(on_time_count, total_with_estimate)` of `get_station_performance` for a
station, over the current database. -/
def stationOnTimeTotals (db : Db) (station_id : Nat) (today_start : Nat) : Nat × Nat :=
  onTimeTotals (db.items.filter (completedItemsFilter station_id today_start))

/-! ### Basic lemmas about the database primitives -/

theorem setItem_orders (db : Db) (iid : Nat) (g : OrderItem → OrderItem) :
    (setItem db iid g).orders = db.orders := rfl

theorem setItem_logs (db : Db) (iid : Nat) (g : OrderItem → OrderItem) :
    (setItem db iid g).logs = db.logs := rfl

theorem setOrder_items (db : Db) (oid : Nat) (g : Order → Order) :
    (setOrder db oid g).items = db.items := rfl

theorem setOrder_logs (db : Db) (oid : Nat) (g : Order → Order) :
    (setOrder db oid g).logs = db.logs := rfl

theorem addLogs_items (db : Db) (ls : List KitchenPerformanceLog) :
    (addLogs db ls).items = db.items := rfl

theorem addLogs_orders (db : Db) (ls : List KitchenPerformanceLog) :
    (addLogs db ls).orders = db.orders := rfl

theorem findOrder_setItem (db : Db) (iid : Nat) (g : OrderItem → OrderItem) (t : Nat) :
    findOrder (setItem db iid g) t = findOrder db t := rfl

theorem findOrder_addLogs (db : Db) (ls : List KitchenPerformanceLog) (t : Nat) :
    findOrder (addLogs db ls) t = findOrder db t := rfl

theorem findItem_setOrder (db : Db) (oid : Nat) (g : Order → Order) (t : Nat) :
    findItem (setOrder db oid g) t = findItem db t := rfl

theorem findItem_addLogs (db : Db) (ls : List KitchenPerformanceLog) (t : Nat) :
    findItem (addLogs db ls) t = findItem db t := rfl

theorem orderItems_setOrder (db : Db) (oid : Nat) (g : Order → Order) (t : Nat) :
    orderItems (setOrder db oid g) t = orderItems db t := rfl

theorem orderItems_addLogs (db : Db) (ls : List KitchenPerformanceLog) (t : Nat) :
    orderItems (addLogs db ls) t = orderItems db t := rfl

/-- `find?` commutes with a map that does not change the predicate's verdict. -/
theorem find?_map_congr {α : Type} (f : α → α) (p : α → Bool)
    (h : ∀ a, p (f a) = p a) (l : List α) :
    (l.map f).find? p = (l.find? p).map f := by
  induction l with
  | nil => rfl
  | cons a l ih =>
    cases hp : p a with
    | true =>
      rw [List.map_cons, List.find?_cons_of_pos _ ((h a).trans hp),
        List.find?_cons_of_pos _ hp]
      rfl
    | false =>
      rw [List.map_cons, List.find?_cons_of_neg _ (by simp [h a, hp]),
        List.find?_cons_of_neg _ (by simp [hp]), ih]

/-- Looking an item up after `setItem` with a replacement row that keeps the
primary key: the lookup result is the old one, transformed. -/
theorem findItem_setItem (db : Db) (iid : Nat) (x : OrderItem)
    (hx : x.id = iid) (t : Nat) :
    findItem (setItem db iid (fun _ => x)) t =
      (findItem db t).map (fun j => if j.id == iid then x else j) := by
  unfold findItem setItem
  exact find?_map_congr _ _ (fun a => by
    by_cases ha : a.id = iid
    · simp [ha, hx]
    · simp [ha]) _

/-- Looking an order up after `setOrder` with a mutation that keeps the primary
key. -/
theorem findOrder_setOrder (db : Db) (oid : Nat) (g : Order → Order)
    (hg : ∀ o, (g o).id = o.id) (t : Nat) :
    findOrder (setOrder db oid g) t =
      (findOrder db t).map (fun o => if o.id == oid then g o else o) := by
  unfold findOrder setOrder
  exact find?_map_congr _ _ (fun a => by
    by_cases ha : a.id = oid
    · simp [ha, hg]
    · simp [ha]) _

/-! ### Reduction lemmas for the handlers -/

theorem updateItemStatus_found (db : Db) (iid : Nat) (u : OrderItemKDSUpdate)
    (now chef : Nat) (i : OrderItem) (hi : findItem db iid = some i) :
    updateItemStatus db iid u now chef =
      updateStatusOrderPhase
        (addLogs (setItem db iid (fun _ => (updateItemStep i u now chef).1))
          (updateItemStep i u now chef).2)
        i.order_id now := by
  unfold updateItemStatus
  rw [hi]

theorem startItemPreparation_found (db : Db) (iid : Nat) (now chef : Nat)
    (i : OrderItem) (hi : findItem db iid = some i) :
    startItemPreparation db iid now chef =
      startOrderPhase
        (setItem db iid (fun _ => { i with
          prep_status := some "preparing"
          prep_start_time := some now
          assigned_chef_id := some chef }))
        i.order_id now := by
  unfold startItemPreparation
  rw [hi]

theorem completeItemPreparation_found (db : Db) (iid : Nat) (now chef : Nat)
    (i : OrderItem) (hi : findItem db iid = some i) :
    completeItemPreparation db iid now chef =
      completeOrderPhase
        (addLogs (setItem db iid (fun _ => (completeItemStep i now chef).1))
          (completeItemStep i now chef).2)
        i.order_id now := by
  unfold completeItemPreparation
  rw [hi]

theorem updateStatusOrderPhase_found (db1 : Db) (oid now : Nat) (o : Order)
    (ho : findOrder db1 oid = some o) :
    updateStatusOrderPhase db1 oid now =
      if ((orderItems db1 o.id).all (fun oi => oi.prep_status == some "ready")
          && !dtTruthy o.all_items_ready_at) then
        .ok (setOrder db1 o.id (fun od =>
          { od with all_items_ready_at := some now
                    kitchen_status := some "all_ready"
                    status := "ready" }))
      else .ok db1 := by
  unfold updateStatusOrderPhase
  rw [ho]

theorem completeOrderPhase_found (db1 : Db) (oid now : Nat) (o : Order)
    (ho : findOrder db1 oid = some o) :
    completeOrderPhase db1 oid now =
      if (orderItems db1 o.id).all (fun oi => oi.prep_status == some "ready") then
        .ok (setOrder db1 o.id (fun od =>
          { od with all_items_ready_at := some now
                    kitchen_status := some "all_ready"
                    status := "ready" }))
      else .ok db1 := by
  unfold completeOrderPhase
  rw [ho]

theorem startOrderPhase_found (db1 : Db) (oid now : Nat) (o : Order)
    (ho : findOrder db1 oid = some o) :
    startOrderPhase db1 oid now =
      .ok (setOrder db1 o.id (fun _ =>
        let o1 := if o.kitchen_status == some "pending" then
            { o with kitchen_status := some "received", kitchen_received_at := some now }
          else o
        if o1.kitchen_status == some "received" then
          { o1 with kitchen_status := some "in_progress" }
        else o1)) := by
  unfold startOrderPhase
  rw [ho]

/-! ### C10: default display settings for a station with no settings row -/

/-- C10: when no `TicketDisplaySettings` row exists for the station,
`GET /api/kds/stations/{station_id}/settings` does not fail with 404 (the
handler is total) but returns the defaults record: `id = 0`, the given
`station_id`, `font_size = "medium"`, `auto_bump_completed = false`,
`bump_delay_seconds = 0`, `alert_threshold_minutes = 15`. -/
theorem C10_default_display_settings (db : Db) (sid : Nat)
    (h : findSettings db sid = none) :
    getDisplaySettings db sid =
      { id := 0
        station_id := some sid
        font_size := "medium"
        show_customer_names := true
        show_ticket_times := true
        show_special_requests := true
        auto_bump_completed := false
        bump_delay_seconds := 0
        alert_threshold_minutes := 15
        updated_at := none } := by
  unfold getDisplaySettings
  rw [h]
  rfl

/-- The empty database. -/
def emptyDb : Db := { items := [], orders := [], logs := [], settings := [] }

/-- Witness for C10 at station 3 of the empty database. -/
theorem C10_default_display_settings_witness :
    getDisplaySettings emptyDb 3 =
      { id := 0
        station_id := some 3
        font_size := "medium"
        show_customer_names := true
        show_ticket_times := true
        show_special_requests := true
        auto_bump_completed := false
        bump_delay_seconds := 0
        alert_threshold_minutes := 15
        updated_at := none } :=
  C10_default_display_settings emptyDb 3 rfl

/-! ### C9: not-found on every KDS write operation is a 404 with no write -/

/-- C9: each KDS write handler checks existence before any mutation: invoked
with an id that matches no item (resp. no order), it returns the 404
`HTTPException` and, being a pure function into `Except`, produces no new
database state — items, orders and performance logs are untouched. -/
theorem C9_not_found_404 (db : Db) (iid oid now chef : Nat)
    (u : OrderItemKDSUpdate) (req : ReassignItemRequest)
    (breq : Option BumpOrderRequest) :
    (findItem db iid = none →
      updateItemStatus db iid u now chef = .error (.notFound "Order item not found")) ∧
    (findItem db iid = none →
      startItemPreparation db iid now chef = .error (.notFound "Order item not found")) ∧
    (findItem db iid = none →
      completeItemPreparation db iid now chef = .error (.notFound "Order item not found")) ∧
    (findOrder db oid = none →
      bumpOrder db oid now breq = .error (.notFound "Order not found")) ∧
    (findItem db req.order_item_id = none →
      reassignItem db req chef "chef" = .error (.notFound "Order item not found")) := by
  refine ⟨fun h => ?_, fun h => ?_, fun h => ?_, fun h => ?_, fun h => ?_⟩
  · unfold updateItemStatus; rw [h]
  · unfold startItemPreparation; rw [h]
  · unfold completeItemPreparation; rw [h]
  · unfold bumpOrder; rw [h]
  · unfold reassignItem; rw [h]; rfl

/-- Witness for C9 on the empty database. -/
theorem C9_not_found_404_witness :
    updateItemStatus emptyDb 1 {} 0 7 = .error (.notFound "Order item not found") ∧
    startItemPreparation emptyDb 1 0 7 = .error (.notFound "Order item not found") ∧
    completeItemPreparation emptyDb 1 0 7 = .error (.notFound "Order item not found") ∧
    bumpOrder emptyDb 2 0 none = .error (.notFound "Order not found") ∧
    reassignItem emptyDb { order_item_id := 1, new_station_id := 2 } 7 "chef" =
      .error (.notFound "Order item not found") := by
  have h := C9_not_found_404 emptyDb 1 2 0 7 {} { order_item_id := 1, new_station_id := 2 } none
  exact ⟨h.1 rfl, h.2.1 rfl, h.2.2.1 rfl, h.2.2.2.1 rfl, h.2.2.2.2 rfl⟩

/-! ### C4: reassignment frame property -/

theorem reassignItem_found (db : Db) (req : ReassignItemRequest) (chef : Nat)
    (role : String) (i : OrderItem)
    (hguard : (!(role == "admin" || role == "manager" || role == "chef")) = false)
    (hi : findItem db req.order_item_id = some i) :
    reassignItem db req chef role =
      (let item2 := if natIdTruthy req.new_chef_id then
          { i with station_id := some req.new_station_id
                   assigned_chef_id := req.new_chef_id }
        else { i with station_id := some req.new_station_id }
       let db1 := setItem db req.order_item_id (fun _ => item2)
       if natIdTruthy i.station_id then
         .ok (addLogs db1
           [{ station_id := i.station_id
              order_item_id := i.id
              action := "reassigned"
              chef_id := some chef
              duration_seconds := none
              notes := some (match req.reason with
                | some s => if s == "" then defaultReassignNote req.new_station_id else s
                | none => defaultReassignNote req.new_station_id) }])
       else .ok db1) := by
  unfold reassignItem
  rw [hguard, hi]
  rfl

/-- C4: for an item currently assigned to station `a` (a real station id, hence
nonzero), `reassign_item` sets `station_id` to the requested new station but
leaves `prep_status`, `quantity` and `order_id` unchanged, appends exactly one
`KitchenPerformanceLog` row with `action="reassigned"` carrying the OLD station
id `a`, and touches no order row. -/
theorem C4_reassign_frame (db : Db) (req : ReassignItemRequest) (chef : Nat)
    (role : String) (i : OrderItem) (a : Nat)
    (hrole : role = "admin" ∨ role = "manager" ∨ role = "chef")
    (hi : findItem db req.order_item_id = some i)
    (ha : i.station_id = some a) (ha0 : a ≠ 0) :
    ∃ db', reassignItem db req chef role = .ok db' ∧
      (∃ i', findItem db' req.order_item_id = some i' ∧
        i'.station_id = some req.new_station_id ∧
        i'.prep_status = i.prep_status ∧
        i'.quantity = i.quantity ∧
        i'.order_id = i.order_id) ∧
      (∃ l, db'.logs = db.logs ++ [l] ∧
        l.action = "reassigned" ∧ l.station_id = some a) ∧
      db'.orders = db.orders := by
  have hid : i.id = req.order_item_id := by
    simpa using List.find?_some hi
  have hguard : (!(role == "admin" || role == "manager" || role == "chef")) = false := by
    rcases hrole with h | h | h <;> subst h <;> rfl
  have hold : natIdTruthy i.station_id = true := by
    rw [ha]; simpa [natIdTruthy] using ha0
  rw [reassignItem_found db req chef role i hguard hi]
  dsimp only
  rw [hold, if_pos rfl]
  have hxid : (if natIdTruthy req.new_chef_id = true then
      { i with station_id := some req.new_station_id
               assigned_chef_id := req.new_chef_id }
    else { i with station_id := some req.new_station_id }).id = req.order_item_id := by
    split <;> exact hid
  have hfind : findItem (setItem db req.order_item_id (fun _ =>
      if natIdTruthy req.new_chef_id = true then
        { i with station_id := some req.new_station_id
                 assigned_chef_id := req.new_chef_id }
      else { i with station_id := some req.new_station_id })) req.order_item_id =
      some (if natIdTruthy req.new_chef_id = true then
        { i with station_id := some req.new_station_id
                 assigned_chef_id := req.new_chef_id }
      else { i with station_id := some req.new_station_id }) := by
    rw [findItem_setItem db req.order_item_id _ hxid, hi]
    simp [hid]
  exact ⟨_, rfl,
    ⟨_, hfind, by split <;> rfl, by split <;> rfl, by split <;> rfl, by split <;> rfl⟩,
    ⟨_, rfl, rfl, ha⟩, rfl⟩

/-- Concrete data for the C4 witness: an item of order 1 at station 2. -/
def c4Item : OrderItem :=
  { id := 1
    order_id := 1
    menu_item_id := 10
    quantity := 2
    price := 12
    special_instructions := none
    station_id := some 2
    priority := some 0
    prep_status := some "preparing"
    prep_start_time := some 100
    prep_end_time := none
    assigned_chef_id := some 4
    preparation_notes := none
    estimated_prep_time := some 10 }

def c4Db : Db := { items := [c4Item], orders := [], logs := [], settings := [] }

/-- Witness for C4: reassign item 1 from station 2 to station 5 as a manager. -/
theorem C4_reassign_frame_witness :
    ∃ db', reassignItem c4Db { order_item_id := 1, new_station_id := 5 } 7 "manager" = .ok db' ∧
      (∃ i', findItem db' 1 = some i' ∧
        i'.station_id = some 5 ∧
        i'.prep_status = c4Item.prep_status ∧
        i'.quantity = c4Item.quantity ∧
        i'.order_id = c4Item.order_id) ∧
      (∃ l, db'.logs = c4Db.logs ++ [l] ∧
        l.action = "reassigned" ∧ l.station_id = some 2) ∧
      db'.orders = c4Db.orders :=
  C4_reassign_frame c4Db { order_item_id := 1, new_station_id := 5 } 7 "manager"
    c4Item 2 (Or.inr (Or.inl rfl)) rfl rfl (by decide)

/-! ### C3: bump semantics -/

theorem bumpOrder_found_none (db : Db) (oid now : Nat) (o : Order)
    (ho : findOrder db oid = some o) :
    bumpOrder db oid now none = .ok (bumpWholeOrder db o now) := by
  unfold bumpOrder; rw [ho]

theorem bumpOrder_found_some (db : Db) (oid now : Nat) (r : BumpOrderRequest)
    (o : Order) (ho : findOrder db oid = some o) :
    bumpOrder db oid now (some r) =
      if natIdTruthy r.station_id then
        .ok { db with items := db.items.map (fun j =>
          if j.order_id == o.id && j.station_id == r.station_id then
            { j with prep_status := some "served" }
          else j) }
      else .ok (bumpWholeOrder db o now) := by
  unfold bumpOrder; rw [ho]

/-- C3: bumping an order without a (truthy) station id stamps `bumped_at`, sets
`kitchen_status="bumped"` and forces EVERY item of the order to `"served"`
regardless of prior state; bumping with a station id `S` of a real station
(nonzero) sets `prep_status="served"` only on this order's items whose
`station_id = S`, and changes no other item, no order row and no log. -/
theorem C3_bump_semantics (db : Db) (oid now : Nat) (o : Order)
    (ho : findOrder db oid = some o) :
    (∀ req : Option BumpOrderRequest,
      req = none ∨ (∃ r, req = some r ∧ natIdTruthy r.station_id = false) →
      bumpOrder db oid now req = .ok
        { items := db.items.map (fun j =>
            if j.order_id = o.id then { j with prep_status := some "served" } else j)
          orders := db.orders.map (fun od =>
            if od.id = o.id then
              { od with bumped_at := some now, kitchen_status := some "bumped" }
            else od)
          logs := db.logs
          settings := db.settings }) ∧
    (∀ r : BumpOrderRequest, ∀ S : Nat, r.station_id = some S → S ≠ 0 →
      bumpOrder db oid now (some r) = .ok
        { items := db.items.map (fun j =>
            if j.order_id = o.id ∧ j.station_id = some S then
              { j with prep_status := some "served" }
            else j)
          orders := db.orders
          logs := db.logs
          settings := db.settings }) := by
  constructor
  · intro req hreq
    have hfull : bumpOrder db oid now req = .ok (bumpWholeOrder db o now) := by
      rcases hreq with rfl | ⟨r, rfl, hr⟩
      · exact bumpOrder_found_none db oid now o ho
      · rw [bumpOrder_found_some db oid now r o ho, hr]
        rfl
    rw [hfull]
    congr 1
    unfold bumpWholeOrder setOrder
    dsimp only
    simp [beq_iff_eq]
  · intro r S hS hS0
    rw [bumpOrder_found_some db oid now r o ho]
    have hr : natIdTruthy r.station_id = true := by
      rw [hS]; simpa [natIdTruthy] using hS0
    rw [hr, if_pos rfl]
    congr 1
    simp [hS, beq_iff_eq, Bool.and_eq_true]

def c3Order : Order :=
  { id := 1
    status := "preparing"
    kitchen_status := some "in_progress"
    kitchen_received_at := some 10
    all_items_ready_at := none
    bumped_at := none }

def c3ItemA : OrderItem := { c4Item with id := 1, order_id := 1, station_id := some 2 }

def c3ItemB : OrderItem :=
  { c4Item with id := 2, order_id := 1, station_id := some 3, prep_status := some "ready" }

def c3Db : Db := { items := [c3ItemA, c3ItemB], orders := [c3Order], logs := [], settings := [] }

/-- Witness for C3: a whole-order bump and a station-2 bump of order 1. -/
theorem C3_bump_semantics_witness :
    bumpOrder c3Db 1 900 none = .ok
      { items := c3Db.items.map (fun j =>
          if j.order_id = c3Order.id then { j with prep_status := some "served" } else j)
        orders := c3Db.orders.map (fun od =>
          if od.id = c3Order.id then
            { od with bumped_at := some 900, kitchen_status := some "bumped" }
          else od)
        logs := c3Db.logs
        settings := c3Db.settings } ∧
    bumpOrder c3Db 1 900 (some { order_id := 1, station_id := some 2 }) = .ok
      { items := c3Db.items.map (fun j =>
          if j.order_id = c3Order.id ∧ j.station_id = some 2 then
            { j with prep_status := some "served" }
          else j)
        orders := c3Db.orders
        logs := c3Db.logs
        settings := c3Db.settings } :=
  ⟨(C3_bump_semantics c3Db 1 900 c3Order rfl).1 none (Or.inl rfl),
   (C3_bump_semantics c3Db 1 900 c3Order rfl).2 { order_id := 1, station_id := some 2 } 2
     rfl (by decide)⟩

/-! ### C2: `start` is not idempotent — it overwrites timestamps and chef -/

def c2Item : OrderItem := { c4Item with
  prep_status := some "pending"
  prep_start_time := none
  assigned_chef_id := none }

def c2Order : Order :=
  { id := 1
    status := "confirmed"
    kitchen_status := some "pending"
    kitchen_received_at := none
    all_items_ready_at := none
    bumped_at := none }

def c2Db : Db := { items := [c2Item], orders := [c2Order], logs := [], settings := [] }

/-- C2 counterexample: calling `start` twice on the same item does NOT leave
`prep_start_time` and `assigned_chef_id` unchanged — the second call (time 200,
chef 2) overwrites the values set by the first (time 100, chef 1). -/
theorem C2_counterexample :
    ∃ d1 d2, startItemPreparation c2Db 1 100 1 = .ok d1 ∧
      startItemPreparation d1 1 200 2 = .ok d2 ∧
      (findItem d1 1).map (fun j => (j.prep_start_time, j.assigned_chef_id)) =
        some (some 100, some 1) ∧
      (findItem d2 1).map (fun j => (j.prep_start_time, j.assigned_chef_id)) =
        some (some 200, some 2) :=
  ⟨_, _, rfl, rfl, rfl, rfl⟩

/-- C2 amended: `start_item_preparation` assigns `prep_status="preparing"`,
`prep_start_time=now` and `assigned_chef_id=chef` unconditionally on every
call (lines 335-337) — a repeated `start` overwrites the previous timestamp and
chef instead of leaving them unchanged; only the generic status-update endpoint
sets these fields "if unset". -/
theorem C2_start_overwrites (db : Db) (iid now chef : Nat) (i : OrderItem)
    (o : Order) (hi : findItem db iid = some i)
    (ho : findOrder db i.order_id = some o) :
    ∃ db', startItemPreparation db iid now chef = .ok db' ∧
      findItem db' iid = some { i with
        prep_status := some "preparing"
        prep_start_time := some now
        assigned_chef_id := some chef } := by
  have hid : i.id = iid := by simpa using List.find?_some hi
  rw [startItemPreparation_found db iid now chef i hi]
  have ho1 : findOrder (setItem db iid (fun _ => { i with
      prep_status := some "preparing"
      prep_start_time := some now
      assigned_chef_id := some chef })) i.order_id = some o := ho
  rw [startOrderPhase_found _ _ _ o ho1]
  refine ⟨_, rfl, ?_⟩
  rw [findItem_setOrder, findItem_setItem db iid { i with
      prep_status := some "preparing"
      prep_start_time := some now
      assigned_chef_id := some chef } hid, hi]
  simp [hid]

/-- Witness for the amended C2 at the concrete database. -/
theorem C2_start_overwrites_witness :
    ∃ db', startItemPreparation c2Db 1 100 1 = .ok db' ∧
      findItem db' 1 = some { c2Item with
        prep_status := some "preparing"
        prep_start_time := some 100
        assigned_chef_id := some 1 } :=
  C2_start_overwrites c2Db 1 100 1 c2Item c2Order rfl rfl

/-! ### C7: no forward-only transition guard on `prep_status` -/

theorem applyKDSUpdate_id (i : OrderItem) (u : OrderItemKDSUpdate) :
    (applyKDSUpdate i u).id = i.id := by
  obtain ⟨f1, f2, f3, f4, f5, f6⟩ := u
  unfold applyKDSUpdate
  cases f1 <;> cases f2 <;> cases f3 <;> cases f4 <;> cases f5 <;> cases f6 <;> rfl

theorem applyKDSUpdate_prep_status (i : OrderItem) (u : OrderItemKDSUpdate)
    (v : Option String) (h : u.prep_status = some v) :
    (applyKDSUpdate i u).prep_status = v := by
  obtain ⟨f1, f2, f3, f4, f5, f6⟩ := u
  cases h
  unfold applyKDSUpdate
  cases f1 <;> cases f2 <;> cases f4 <;> cases f5 <;> cases f6 <;> rfl

theorem updateItemStep_fst_id (i : OrderItem) (u : OrderItemKDSUpdate)
    (now chef : Nat) : ((updateItemStep i u now chef).1).id = i.id := by
  unfold updateItemStep
  dsimp only
  repeat' split
  all_goals simp [applyKDSUpdate_id]

theorem updateItemStep_fst_prep_status (i : OrderItem) (u : OrderItemKDSUpdate)
    (now chef : Nat) :
    ((updateItemStep i u now chef).1).prep_status = (applyKDSUpdate i u).prep_status := by
  unfold updateItemStep
  dsimp only
  repeat' split
  all_goals rfl

/-- C7 amended: the source has no transition guard — `update_item_status`
writes whatever `prep_status` value the payload supplies (the `setattr` loop),
and `start` forces `"preparing"` regardless of prior state, so `prep_status`
can move backwards along the chain pending → assigned → preparing → ready →
served. -/
theorem C7_no_transition_guard (db : Db) (iid : Nat) (u : OrderItemKDSUpdate)
    (now chef : Nat) (i : OrderItem) (o : Order) (s : String)
    (hi : findItem db iid = some i) (ho : findOrder db i.order_id = some o)
    (hs : u.prep_status = some (some s)) :
    ∃ db' i', updateItemStatus db iid u now chef = .ok db' ∧
      findItem db' iid = some i' ∧ i'.prep_status = some s := by
  have hid : i.id = iid := by simpa using List.find?_some hi
  have hxid : ((updateItemStep i u now chef).1).id = iid := by
    rw [updateItemStep_fst_id]; exact hid
  have hps : ((updateItemStep i u now chef).1).prep_status = some s := by
    rw [updateItemStep_fst_prep_status, applyKDSUpdate_prep_status i u (some s) hs]
  rw [updateItemStatus_found db iid u now chef i hi]
  have hfx : findItem (addLogs (setItem db iid (fun _ => (updateItemStep i u now chef).1))
      (updateItemStep i u now chef).2) iid = some (updateItemStep i u now chef).1 := by
    rw [findItem_addLogs, findItem_setItem db iid _ hxid, hi]
    simp [hid]
  have ho1 : findOrder (addLogs (setItem db iid (fun _ => (updateItemStep i u now chef).1))
      (updateItemStep i u now chef).2) i.order_id = some o := ho
  rw [updateStatusOrderPhase_found _ _ _ o ho1]
  by_cases hg : ((orderItems (addLogs (setItem db iid (fun _ => (updateItemStep i u now chef).1))
      (updateItemStep i u now chef).2) o.id).all (fun oi => oi.prep_status == some "ready")
      && !dtTruthy o.all_items_ready_at) = true
  · rw [if_pos hg]
    exact ⟨_, _, rfl, by rw [findItem_setOrder]; exact hfx, hps⟩
  · rw [if_neg hg]
    exact ⟨_, _, rfl, hfx, hps⟩

/-- Ranks along the spec's forward chain
pending → assigned → preparing → ready → served. -/
def prepStatusRank (s : String) : Nat :=
  if s = "pending" then 0
  else if s = "assigned" then 1
  else if s = "preparing" then 2
  else if s = "ready" then 3
  else 4

def c7Item : OrderItem := { c4Item with
  prep_status := some "ready"
  prep_end_time := some 150 }

def c7Db : Db := { items := [c7Item], orders := [c3Order], logs := [], settings := [] }

/-- C7 counterexample: calling `start` on an item that is already `"ready"`
moves its `prep_status` backwards to `"preparing"`. -/
theorem C7_counterexample :
    ∃ d, startItemPreparation c7Db 1 300 2 = .ok d ∧
      (findItem c7Db 1).map OrderItem.prep_status = some (some "ready") ∧
      (findItem d 1).map OrderItem.prep_status = some (some "preparing") ∧
      prepStatusRank "preparing" < prepStatusRank "ready" :=
  ⟨_, rfl, rfl, rfl, by decide⟩

/-- Witness for the amended C7: the status-update endpoint moves the `"ready"`
item 1 back to `"preparing"`. -/
theorem C7_no_transition_guard_witness :
    ∃ db' i', updateItemStatus c7Db 1 { prep_status := some (some "preparing") } 300 2
        = .ok db' ∧
      findItem db' 1 = some i' ∧ i'.prep_status = some "preparing" :=
  C7_no_transition_guard c7Db 1 { prep_status := some (some "preparing") } 300 2
    c7Item c3Order "preparing" rfl rfl rfl

/-! ### C8: on-time classification in the station performance loop -/

def c8ItemZero : OrderItem := { c4Item with
  prep_status := some "ready"
  prep_start_time := some 0
  prep_end_time := some 0
  estimated_prep_time := some 0 }

/-- C8 counterexample: an item with `prep_start_time`, `prep_end_time` and
`estimated_prep_time` ALL SET, whose duration (0 min) satisfies the ≤ est+5
condition, is nevertheless not counted at all (neither on-time nor in the
total): Python's `if ... and item.estimated_prep_time:` treats the set value 0
as falsy and skips the item. -/
theorem C8_counterexample :
    c8ItemZero.prep_start_time = some 0 ∧
    c8ItemZero.prep_end_time = some 0 ∧
    c8ItemZero.estimated_prep_time = some 0 ∧
    (((0 : ℚ) - (0 : ℚ)) / 60 ≤ (0 : ℚ) + 5) ∧
    onTimeContribution c8ItemZero = (0, 0) :=
  ⟨rfl, rfl, rfl, by norm_num, rfl⟩

/-- C8 amended: for an item with the three fields set AND a nonzero estimate,
the loop counts it in the total, and counts it as on-time exactly when
`(prep_end_time − prep_start_time)` in minutes is `≤ estimated_prep_time + 5`
(so 12 minutes against a 10-minute estimate is on time; 16 minutes is not). -/
theorem C8_on_time_iff (i : OrderItem) (s e : Nat) (m : Int)
    (hs : i.prep_start_time = some s) (he : i.prep_end_time = some e)
    (hm : i.estimated_prep_time = some m) (hm0 : m ≠ 0) :
    (onTimeContribution i).2 = 1 ∧
    ((onTimeContribution i).1 = 1 ↔ ((e : ℚ) - (s : ℚ)) / 60 ≤ (m : ℚ) + 5) := by
  unfold onTimeContribution
  rw [hs, he, hm]
  dsimp only
  have hm0' : (m != 0) = true := by simpa using hm0
  rw [hm0', if_pos rfl]
  refine ⟨rfl, ?_⟩
  unfold onTimeB
  by_cases hc : ((e : ℚ) - (s : ℚ)) / 60 ≤ (m : ℚ) + 5
  · simp [hc]
  · simp [hc]

def c8ItemA : OrderItem := { c4Item with
  prep_status := some "ready"
  prep_start_time := some 0
  prep_end_time := some 720
  estimated_prep_time := some 10 }

def c8ItemB : OrderItem := { c4Item with
  prep_status := some "ready"
  prep_start_time := some 0
  prep_end_time := some 960
  estimated_prep_time := some 10 }

/-- Witness for the amended C8: with a 10-minute estimate, a 12-minute item
(720 s) is counted on time, and a 16-minute item (960 s) is counted in the
total but not on time. -/
theorem C8_on_time_iff_witness :
    ((onTimeContribution c8ItemA).2 = 1 ∧
      ((onTimeContribution c8ItemA).1 = 1 ↔
        ((720 : ℚ) - (0 : ℚ)) / 60 ≤ (10 : ℚ) + 5)) ∧
    (onTimeContribution c8ItemA).1 = 1 ∧
    (onTimeContribution c8ItemB).2 = 1 ∧
    (onTimeContribution c8ItemB).1 = 0 := by
  have hA := C8_on_time_iff c8ItemA 0 720 10 rfl rfl rfl (by decide)
  have hB := C8_on_time_iff c8ItemB 0 960 10 rfl rfl rfl (by decide)
  refine ⟨hA, hA.2.mpr (by norm_num), hB.1, ?_⟩
  have h1 : ¬ (onTimeContribution c8ItemB).1 = 1 := by
    rw [hB.2]
    norm_num
  have h01 : (onTimeContribution c8ItemB).1 = 1 ∨ (onTimeContribution c8ItemB).1 = 0 := by
    unfold onTimeContribution c8ItemB c4Item
    dsimp only
    split <;> simp
  rcases h01 with h | h
  · exact absurd h h1
  · exact h

/-! ### C5: the "set once" property of `all_items_ready_at` -/

theorem updateItemStatus_notFound (db : Db) (iid : Nat) (u : OrderItemKDSUpdate)
    (now chef : Nat) (h : findItem db iid = none) :
    updateItemStatus db iid u now chef = .error (.notFound "Order item not found") := by
  unfold updateItemStatus; rw [h]

theorem updateStatusOrderPhase_notFound (db1 : Db) (oid now : Nat)
    (h : findOrder db1 oid = none) :
    updateStatusOrderPhase db1 oid now = .error .internalError := by
  unfold updateStatusOrderPhase; rw [h]

def c5Item : OrderItem := { c4Item with
  prep_status := some "ready"
  prep_start_time := some 10
  prep_end_time := some 40 }

def c5Order : Order := { c3Order with
  status := "ready"
  kitchen_status := some "all_ready"
  all_items_ready_at := some 50 }

def c5Db : Db := { items := [c5Item], orders := [c5Order], logs := [], settings := [] }

/-- C5 counterexample: `complete_item_preparation` re-stamps
`all_items_ready_at` (no "if unset" guard, kds.py lines 402-406): the order had
`all_items_ready_at = 50`, and completing its (already ready) single item at
time 100 overwrites the timestamp to 100. -/
theorem C5_counterexample :
    ∃ d, completeItemPreparation c5Db 1 100 7 = .ok d ∧
      (findOrder c5Db 1).map Order.all_items_ready_at = some (some 50) ∧
      (findOrder d 1).map Order.all_items_ready_at = some (some 100) :=
  ⟨_, rfl, rfl, rfl⟩

/-- C5 amended: the set-once property holds for the status-update path only:
once an order's `all_items_ready_at` is set, any `update_item_status` call
leaves it unchanged (the recomputation is guarded on it being unset).  The
`complete` path, by contrast, overwrites it whenever all items are ready (see
the counterexample). -/
theorem C5_update_preserves_ready_stamp (db : Db) (iid : Nat)
    (u : OrderItemKDSUpdate) (now chef oid : Nat) (o : Order) (t : Nat) (db' : Db)
    (ho : findOrder db oid = some o)
    (hset : o.all_items_ready_at = some t)
    (hrun : updateItemStatus db iid u now chef = .ok db') :
    ∃ o', findOrder db' oid = some o' ∧ o'.all_items_ready_at = some t := by
  cases hi : findItem db iid with
  | none =>
    rw [updateItemStatus_notFound db iid u now chef hi] at hrun
    exact Except.noConfusion hrun
  | some i =>
    rw [updateItemStatus_found db iid u now chef i hi] at hrun
    cases hfo : findOrder (addLogs (setItem db iid (fun _ => (updateItemStep i u now chef).1))
        (updateItemStep i u now chef).2) i.order_id with
    | none =>
      rw [updateStatusOrderPhase_notFound _ _ _ hfo] at hrun
      exact Except.noConfusion hrun
    | some o1 =>
      rw [updateStatusOrderPhase_found _ _ _ o1 hfo] at hrun
      by_cases hg : ((orderItems (addLogs (setItem db iid (fun _ => (updateItemStep i u now chef).1))
          (updateItemStep i u now chef).2) o1.id).all (fun oi => oi.prep_status == some "ready")
          && !dtTruthy o1.all_items_ready_at) = true
      · rw [if_pos hg] at hrun
        have hnone : o1.all_items_ready_at = none := by
          have h2 := (Bool.and_eq_true_iff.mp hg).2
          cases hx : o1.all_items_ready_at with
          | none => rfl
          | some v => rw [hx] at h2; simp [dtTruthy] at h2
        have hdb' : db' = setOrder (addLogs (setItem db iid (fun _ => (updateItemStep i u now chef).1))
            (updateItemStep i u now chef).2) o1.id (fun od =>
              { od with all_items_ready_at := some now
                        kitchen_status := some "all_ready"
                        status := "ready" }) := by
          cases hrun
          rfl
        subst hdb'
        rw [findOrder_setOrder _ o1.id (fun od =>
          { od with all_items_ready_at := some now
                    kitchen_status := some "all_ready"
                    status := "ready" }) (fun od => rfl) oid]
        have ho1 : findOrder (addLogs (setItem db iid (fun _ => (updateItemStep i u now chef).1))
            (updateItemStep i u now chef).2) oid = some o := ho
        rw [ho1]
        by_cases heq : (o.id == o1.id) = true
        · exfalso
          have hoid : o.id = oid := by simpa using List.find?_some ho
          have ho1id : o1.id = i.order_id := by simpa using List.find?_some hfo
          have hoo1 : oid = i.order_id := by
            rw [← hoid, ← ho1id]
            simpa using heq
          have hpred : findOrder db oid = findOrder db i.order_id := by
            unfold findOrder
            rw [hoo1]
          have hsame : some o = some o1 := by
            rw [← ho, hpred]
            exact hfo
          have : o = o1 := Option.some.inj hsame
          rw [this, hnone] at hset
          exact Option.noConfusion hset
        · refine ⟨_, rfl, ?_⟩
          dsimp only
          rw [if_neg heq]
          exact hset
      · rw [if_neg hg] at hrun
        have hdb' : db' = addLogs (setItem db iid (fun _ => (updateItemStep i u now chef).1))
            (updateItemStep i u now chef).2 := by
          cases hrun
          rfl
        subst hdb'
        exact ⟨o, ho, hset⟩

/-- Witness for the amended C5: an empty status update on the already-ready
order leaves `all_items_ready_at = 50` unchanged. -/
theorem C5_update_preserves_ready_stamp_witness :
    ∃ db', updateItemStatus c5Db 1 {} 60 7 = .ok db' ∧
      ∃ o', findOrder db' 1 = some o' ∧ o'.all_items_ready_at = some 50 :=
  ⟨_, rfl, C5_update_preserves_ready_stamp c5Db 1 {} 60 7 1 c5Order 50 _ rfl rfl rfl⟩

/-! ### C1: order-level all-ready recomputation after a status update -/

/-- C1: after `update_item_status` commits the item mutation, the handler
recomputes `all_ready` over the (post-update) sibling items.  If every sibling
is `"ready"` and `all_items_ready_at` was unset, the order is stamped:
`all_items_ready_at = now`, `kitchen_status = "all_ready"`, top-level
`status = "ready"`.  If at least one sibling is not `"ready"`, `kitchen_status`
and `all_items_ready_at` are left unchanged. -/
theorem C1_update_all_ready_recompute (db : Db) (iid : Nat)
    (u : OrderItemKDSUpdate) (now chef : Nat) (i : OrderItem) (o : Order)
    (db' : Db) (hi : findItem db iid = some i)
    (ho : findOrder db i.order_id = some o)
    (hrun : updateItemStatus db iid u now chef = .ok db') :
    ((∀ j ∈ orderItems db' i.order_id, j.prep_status = some "ready") →
      o.all_items_ready_at = none →
      findOrder db' i.order_id =
        some { o with all_items_ready_at := some now
                      kitchen_status := some "all_ready"
                      status := "ready" }) ∧
    ((∃ j ∈ orderItems db' i.order_id, j.prep_status ≠ some "ready") →
      ∃ o', findOrder db' i.order_id = some o' ∧
        o'.kitchen_status = o.kitchen_status ∧
        o'.all_items_ready_at = o.all_items_ready_at) := by
  have hoid : o.id = i.order_id := by simpa using List.find?_some ho
  rw [updateItemStatus_found db iid u now chef i hi] at hrun
  have ho1 : findOrder (addLogs (setItem db iid (fun _ => (updateItemStep i u now chef).1))
      (updateItemStep i u now chef).2) i.order_id = some o := ho
  rw [updateStatusOrderPhase_found _ _ _ o ho1] at hrun
  by_cases hg : ((orderItems (addLogs (setItem db iid (fun _ => (updateItemStep i u now chef).1))
      (updateItemStep i u now chef).2) o.id).all (fun oi => oi.prep_status == some "ready")
      && !dtTruthy o.all_items_ready_at) = true
  · rw [if_pos hg] at hrun
    have hdb' : db' = setOrder (addLogs (setItem db iid (fun _ => (updateItemStep i u now chef).1))
        (updateItemStep i u now chef).2) o.id (fun od =>
          { od with all_items_ready_at := some now
                    kitchen_status := some "all_ready"
                    status := "ready" }) := by
      cases hrun
      rfl
    subst hdb'
    constructor
    · intro _ _
      rw [findOrder_setOrder _ o.id (fun od =>
        { od with all_items_ready_at := some now
                  kitchen_status := some "all_ready"
                  status := "ready" }) (fun od => rfl) i.order_id, ho1]
      simp
    · rintro ⟨j, hj, hne⟩
      exfalso
      have hall := (Bool.and_eq_true_iff.mp hg).1
      rw [List.all_eq_true] at hall
      have hj2 : j ∈ orderItems (addLogs (setItem db iid (fun _ => (updateItemStep i u now chef).1))
          (updateItemStep i u now chef).2) i.order_id := hj
      rw [← hoid] at hj2
      exact hne (by simpa using hall j hj2)
  · rw [if_neg hg] at hrun
    have hdb' : db' = addLogs (setItem db iid (fun _ => (updateItemStep i u now chef).1))
        (updateItemStep i u now chef).2 := by
      cases hrun
      rfl
    subst hdb'
    constructor
    · intro hall hunset
      exfalso
      apply hg
      apply Bool.and_eq_true_iff.mpr
      constructor
      · rw [List.all_eq_true]
        intro x hx
        have hx2 : x ∈ orderItems (addLogs (setItem db iid (fun _ => (updateItemStep i u now chef).1))
            (updateItemStep i u now chef).2) i.order_id := by
          rw [← hoid]
          exact hx
        simpa using hall x hx2
      · rw [hunset]
        rfl
    · intro _
      exact ⟨o, ho1, rfl, rfl⟩

def c1Order : Order :=
  { id := 1
    status := "preparing"
    kitchen_status := some "in_progress"
    kitchen_received_at := some 10
    all_items_ready_at := none
    bumped_at := none }

def c1Item1 : OrderItem := { c4Item with
  id := 1, prep_status := some "ready", prep_start_time := some 20, prep_end_time := some 200 }

def c1Item2 : OrderItem := { c4Item with
  id := 2, prep_status := some "ready", prep_start_time := some 30, prep_end_time := some 300 }

def c1Item3 : OrderItem := { c4Item with
  id := 3, prep_status := some "preparing", prep_start_time := some 40, prep_end_time := none }

def c1Db : Db := { items := [c1Item1, c1Item2, c1Item3], orders := [c1Order], logs := [], settings := [] }

def c1Upd : OrderItemKDSUpdate := { prep_status := some (some "ready") }

/-- Witness for C1, the spec's 3-item scenario: with items 1 and 2 `"ready"`
and item 3 `"preparing"`, updating item 1 leaves `kitchen_status` and
`all_items_ready_at` unchanged; updating item 3 to `"ready"` stamps the order
(`all_items_ready_at = 500`, `kitchen_status = "all_ready"`, `status = "ready"`). -/
theorem C1_update_all_ready_recompute_witness :
    (∃ db', updateItemStatus c1Db 3 c1Upd 500 7 = .ok db' ∧
      findOrder db' 1 =
        some { c1Order with all_items_ready_at := some 500
                            kitchen_status := some "all_ready"
                            status := "ready" }) ∧
    (∃ db2, updateItemStatus c1Db 1 c1Upd 450 7 = .ok db2 ∧
      ∃ o', findOrder db2 1 = some o' ∧
        o'.kitchen_status = c1Order.kitchen_status ∧
        o'.all_items_ready_at = c1Order.all_items_ready_at) :=
  ⟨⟨_, rfl, (C1_update_all_ready_recompute c1Db 3 c1Upd 500 7 c1Item3 c1Order _
      rfl rfl rfl).1 (by decide) rfl⟩,
   ⟨_, rfl, (C1_update_all_ready_recompute c1Db 1 c1Upd 450 7 c1Item1 c1Order _
      rfl rfl rfl).2 (by decide)⟩⟩

/-! ### C6: `complete` versus `update(status="ready")` -/

/-- The `OrderItemKDSUpdate` payload carrying exactly `prep_status="ready"`. -/
def readyUpdate : OrderItemKDSUpdate := { prep_status := some (some "ready") }

/-- When the item's `prep_end_time` is unset and (its `prep_start_time` is
unset or its `station_id` is truthy), the item-row mutations of `complete` and
of `update(status="ready")` coincide, including the produced log rows. -/
theorem updateItemStep_ready_eq_complete (i : OrderItem) (now chef : Nat)
    (hend : i.prep_end_time = none)
    (hlog : i.prep_start_time = none ∨ natIdTruthy i.station_id = true) :
    updateItemStep i readyUpdate now chef = completeItemStep i now chef := by
  rcases hlog with h | h
  · simp [updateItemStep, completeItemStep, readyUpdate, applyKDSUpdate, attrVal,
      strTruthy, hend, h]
  · cases hst : i.prep_start_time with
    | none =>
      simp [updateItemStep, completeItemStep, readyUpdate, applyKDSUpdate, attrVal,
        strTruthy, hend, hst]
    | some st =>
      simp [updateItemStep, completeItemStep, readyUpdate, applyKDSUpdate, attrVal,
        strTruthy, hend, hst, h]

/-- When the parent order's `all_items_ready_at` is unset, the unguarded
order-phase of `complete` agrees with the guarded one of `update`. -/
theorem completeOrderPhase_eq_update (db1 : Db) (oid now : Nat)
    (h : ∀ o, findOrder db1 oid = some o → o.all_items_ready_at = none) :
    completeOrderPhase db1 oid now = updateStatusOrderPhase db1 oid now := by
  unfold completeOrderPhase updateStatusOrderPhase
  cases hfo : findOrder db1 oid with
  | none => rfl
  | some o =>
    have hnone := h o hfo
    dsimp only
    have hdt : (!dtTruthy o.all_items_ready_at) = true := by rw [hnone]; rfl
    rw [hdt, Bool.and_true]

/-- C6 amended: the claimed equivalence does not hold unconditionally, but
`complete` produces the same item, log and order state as
`update(prep_status="ready")` whenever the item's `prep_end_time` is unset,
the item's `station_id` is truthy or its `prep_start_time` is unset, and the
parent order's `all_items_ready_at` is unset.  Outside this domain the two can
diverge (see the counterexample): `complete` overwrites an already-set
`prep_end_time`, logs only when `station_id` is truthy (while `update` logs
whenever `prep_start_time` is set), and re-stamps `all_items_ready_at` without
the set-once guard. -/
theorem C6_complete_refines_update (db : Db) (iid now chef : Nat) (i : OrderItem)
    (hi : findItem db iid = some i)
    (hend : i.prep_end_time = none)
    (hlog : i.prep_start_time = none ∨ natIdTruthy i.station_id = true)
    (hord : ∀ o, findOrder db i.order_id = some o → o.all_items_ready_at = none) :
    completeItemPreparation db iid now chef = updateItemStatus db iid readyUpdate now chef := by
  rw [completeItemPreparation_found db iid now chef i hi,
    updateItemStatus_found db iid readyUpdate now chef i hi,
    updateItemStep_ready_eq_complete i now chef hend hlog]
  exact completeOrderPhase_eq_update _ _ _ (fun o ho => hord o ho)

def c6Item : OrderItem := { c4Item with
  prep_status := some "preparing"
  prep_start_time := some 100
  prep_end_time := some 150 }

def c6Db : Db := { items := [c6Item], orders := [c1Order], logs := [], settings := [] }

/-- C6 counterexample: on an item whose `prep_end_time` is already set (150),
`complete` overwrites it to 200 and appends a performance log, while
`update(prep_status="ready")` keeps 150 and appends nothing — the two
operations do NOT produce the same state. -/
theorem C6_counterexample :
    ∃ d1 d2, completeItemPreparation c6Db 1 200 7 = .ok d1 ∧
      updateItemStatus c6Db 1 readyUpdate 200 7 = .ok d2 ∧
      (findItem d1 1).map OrderItem.prep_end_time = some (some 200) ∧
      (findItem d2 1).map OrderItem.prep_end_time = some (some 150) ∧
      d1.logs.length = 1 ∧ d2.logs.length = 0 :=
  ⟨_, _, rfl, rfl, rfl, rfl, rfl, rfl⟩

def c6wItem : OrderItem := { c4Item with
  prep_status := some "preparing"
  prep_start_time := some 100
  prep_end_time := none }

def c6wDb : Db := { items := [c6wItem], orders := [c1Order], logs := [], settings := [] }

/-- Witness for the amended C6 on the agreement domain. -/
theorem C6_complete_refines_update_witness :
    completeItemPreparation c6wDb 1 200 7 = updateItemStatus c6wDb 1 readyUpdate 200 7 :=
  C6_complete_refines_update c6wDb 1 200 7 c6wItem rfl rfl (Or.inr rfl)
    (fun o ho => by cases (show some c1Order = some o from ho); rfl)

end KDS
